import Mathlib

/-
Verification of the core pattern of the react-hooks lesson repository:
a status-tracked asynchronous data-fetch component (AsyncResource) composed
with a recoverable error-isolation boundary (RecoverableBoundary), plus the
Greeting name-input component of src/src/exercise/01.js.

The AsyncResource and RecoverableBoundary implementations are described by
the lesson instructions (src/unnamed/part_000, the useEffect HTTP-requests
exercise and its extra credits) but the finished component code is not part
of the source tree, so those parts are modelled from the specification text.
The Greeting component is embedded directly from src/src/exercise/01.js.
-/

namespace ReactHooks

/-- Modelled from the spec: the enumerated request status of extra credit 2
(idle, pending, resolved, rejected), explicit string states rather than
boolean flags. The finished PokemonInfo component is missing from the
source tree. -/
inductive Status
  | idle
  | pending
  | resolved
  | rejected
  deriving DecidableEq

/-- Modelled from the spec: the RequestState object of extra credit 3, the
single state object holding status, data and error, updated through one
state setter so all three fields change as one unit. The finished
PokemonInfo component is missing from the source tree. -/
structure RequestState where
  status : Status
  data : Option String
  error : Option String
  deriving DecidableEq

/-- Modelled from the spec: one AsyncResource component instance. It tracks
the current query key (none before any observe call), the current
RequestState, and the log of fetches it has issued, in order. The finished
PokemonInfo component is missing from the source tree. -/
structure AsyncResource where
  key : Option String
  state : RequestState
  fetches : List String
  deriving DecidableEq

/-- Modelled from the spec: a freshly mounted AsyncResource, idle with no
data, no error, no tracked key and no fetch issued yet. -/
def initResource : AsyncResource :=
  ⟨none, ⟨Status.idle, none, none⟩, []⟩

/-- Modelled from the spec: observe compares the supplied key with the
tracked key; when unchanged it is a no-op, when changed it discards the
current RequestState, moves atomically to pending with data and error
cleared, and issues one fetch for the new key. The finished PokemonInfo
component is missing from the source tree. -/
def observe (r : AsyncResource) (k : String) : AsyncResource :=
  if r.key = some k then r
  else ⟨some k, ⟨Status.pending, none, none⟩, r.fetches ++ [k]⟩

/-- Modelled from the spec: settlement of the request issued for key k with
outcome o. The staleness guard first checks that k is still the tracked
key; a superseded settlement is discarded silently. A success stores the
result and a failure stores the error, each as one atomic three-field
update. The finished PokemonInfo component is missing from the source
tree. -/
def settle (r : AsyncResource) (k : String) (o : Except String String) :
    AsyncResource :=
  if r.key = some k then
    match o with
    | Except.ok d => ⟨r.key, ⟨Status.resolved, some d, none⟩, r.fetches⟩
    | Except.error e => ⟨r.key, ⟨Status.rejected, none, some e⟩, r.fetches⟩
  else r

/-- Modelled from the spec: the events an AsyncResource instance can
receive: an observe call with a key, or the asynchronous settlement of the
fetch issued for a key. -/
inductive Event
  | observe (k : String)
  | settle (k : String) (o : Except String String)

/-- Modelled from the spec: one step of the AsyncResource state machine. -/
def step (r : AsyncResource) (e : Event) : AsyncResource :=
  match e with
  | Event.observe k => observe r k
  | Event.settle k o => settle r k o

/-- Modelled from the spec: the AsyncResource reached from a fresh mount by
a sequence of events. -/
def run (es : List Event) : AsyncResource :=
  es.foldl step initResource

/-- Modelled from the spec: the non-raising render outputs of the
AsyncResource read path: the idle prompt, the loading indicator, or the
resolved data view. -/
inductive Rendered
  | idleView
  | loadingView
  | dataView (d : String)
  deriving DecidableEq

/-- Modelled from the spec: the consumer-facing read path of extra credit 4.
It maps idle, pending and resolved to normal render output and, when the
status is rejected, raises the stored error synchronously (the lesson line
is: if status is rejected then throw error), modelled as the error side of
Except. The finished PokemonInfo component is missing from the source
tree. -/
def render (s : RequestState) : Except String Rendered :=
  match s.status with
  | Status.idle => Except.ok Rendered.idleView
  | Status.pending => Except.ok Rendered.loadingView
  | Status.resolved => Except.ok (Rendered.dataView (s.data.getD ""))
  | Status.rejected => Except.error (s.error.getD "")

/-- The mutual-exclusion invariant of RequestState: data is present exactly
when the status is resolved and error is present exactly when the status is
rejected. -/
def goodState (s : RequestState) : Prop :=
  (s.data ≠ none ↔ s.status = Status.resolved) ∧
  (s.error ≠ none ↔ s.status = Status.rejected)

lemma goodState_initResource : goodState initResource.state := by
  simp [goodState, initResource]

lemma goodState_step (r : AsyncResource) (e : Event)
    (h : goodState r.state) : goodState (step r e).state := by
  cases e with
  | observe k =>
    simp only [step, observe]
    split
    · exact h
    · simp [goodState]
  | settle k o =>
    simp only [step, settle]
    split
    · cases o <;> simp [goodState]
    · exact h

lemma goodState_foldl (es : List Event) (r : AsyncResource)
    (h : goodState r.state) : goodState (es.foldl step r).state := by
  induction es generalizing r with
  | nil => exact h
  | cons e es ih => exact ih (step r e) (goodState_step r e h)

lemma goodState_run (es : List Event) : goodState (run es).state :=
  goodState_foldl es initResource goodState_initResource

lemma observe_key (r : AsyncResource) (k : String) :
    (observe r k).key = some k := by
  unfold observe
  split
  next h => exact h
  next h => rfl

lemma observe_noop (r : AsyncResource) (k : String) (h : r.key = some k) :
    observe r k = r := by
  unfold observe
  rw [if_pos h]

lemma settle_ok (r : AsyncResource) (k d : String) (h : r.key = some k) :
    settle r k (Except.ok d) = ⟨r.key, ⟨Status.resolved, some d, none⟩, r.fetches⟩ := by
  unfold settle
  rw [if_pos h]

lemma settle_err (r : AsyncResource) (k e : String) (h : r.key = some k) :
    settle r k (Except.error e) = ⟨r.key, ⟨Status.rejected, none, some e⟩, r.fetches⟩ := by
  unfold settle
  rw [if_pos h]

lemma settle_miss (r : AsyncResource) (k : String) (o : Except String String)
    (h : r.key ≠ some k) : settle r k o = r := by
  unfold settle
  rw [if_neg h]

/-- Modelled from the spec: the BoundaryRecord held by a
RecoverableBoundary: the captured-failure flag and the captured error
payload. The finished ErrorBoundary component of extra credits 4 to 6 is
missing from the source tree. -/
structure BoundaryRecord where
  hasFailed : Bool
  capturedError : Option String
  deriving DecidableEq

/-- Modelled from the spec: a RecoverableBoundary instance: the identity
token it was last mounted with (extra credit 6 keys it by the query key)
and its BoundaryRecord. The finished ErrorBoundary component is missing
from the source tree. -/
structure Boundary where
  identity : String
  record : BoundaryRecord
  deriving DecidableEq

/-- Modelled from the spec: a brand-new boundary instance mounted for an
identity token: healthy, with an empty BoundaryRecord. -/
def newBoundary (i : String) : Boundary :=
  ⟨i, ⟨false, none⟩⟩

/-- Modelled from the spec: the reset-by-identity mechanism of extra
credit 6: when the identity token changes, the boundary instance is
discarded and replaced by a brand-new healthy one (a full identity-keyed
remount); when it is unchanged, the instance persists as is. The finished
ErrorBoundary component is missing from the source tree. -/
def reset (b : Boundary) (i : String) : Boundary :=
  if b.identity = i then b else newBoundary i

/-- Modelled from the spec: what a boundary shows: either the wrapped
content or the fallback built from a captured error. -/
inductive BoundaryView
  | content (out : String)
  | fallback (e : String)
  deriving DecidableEq

/-- Modelled from the spec: one render pass of the boundary around a
subtree whose own render either returns output or raises an error. While
failed, the boundary renders the fallback from its captured error without
re-attempting the subtree; while healthy it renders the subtree, and a
raised failure is captured into the BoundaryRecord and shown as the
fallback. The finished ErrorBoundary component is missing from the source
tree. -/
def wrap (b : Boundary) (subtree : Except String String) :
    Boundary × BoundaryView :=
  if b.record.hasFailed then
    (b, BoundaryView.fallback (b.record.capturedError.getD ""))
  else
    match subtree with
    | Except.ok out => (b, BoundaryView.content out)
    | Except.error e => (⟨b.identity, ⟨true, some e⟩⟩, BoundaryView.fallback e)

/-- C1. Atomic settlement: a successful settlement of the tracked key
yields, in one step, exactly the state with status resolved and the freshly
delivered data (no absent or stale data); a failed settlement yields
exactly the state with status rejected and the delivered error; and in
every reachable state a pending status never coexists with a leftover
error from a previous attempt. The three fields change only together,
through the single settle transition. -/
theorem atomic_settlement (r : AsyncResource) (k d e : String)
    (h : r.key = some k) :
    (settle r k (Except.ok d)).state = ⟨Status.resolved, some d, none⟩ ∧
    (settle r k (Except.error e)).state = ⟨Status.rejected, none, some e⟩ ∧
    (∀ es : List Event, (run es).state.status = Status.pending →
      (run es).state.error = none) := by
  refine ⟨by rw [settle_ok r k d h], by rw [settle_err r k e h], ?_⟩
  intro es hp
  have hg := (goodState_run es).2
  by_contra hne
  have : (run es).state.status = Status.rejected := hg.mp hne
  rw [hp] at this
  exact Status.noConfusion this

theorem atomic_settlement_witness :
    (settle (observe initResource "pikachu") "pikachu"
        (Except.ok "pokemon.json")).state
      = ⟨Status.resolved, some "pokemon.json", none⟩ :=
  (atomic_settlement (observe initResource "pikachu") "pikachu"
    "pokemon.json" "err" (observe_key initResource "pikachu")).1

/-- C2. Staleness discard: after observe of k1 and then observe of a
different k2 before the first request settles, the eventual settlement of
the request for k1 causes no state mutation at all, whatever its outcome;
a subsequent settlement for k2 then produces exactly the state of the k2
outcome, so the RequestState reflects only the outcome of k2. -/
theorem staleness_discard (r : AsyncResource) (k1 k2 d : String)
    (o : Except String String) (h : k1 ≠ k2) :
    settle (observe (observe r k1) k2) k1 o = observe (observe r k1) k2 ∧
    (settle (settle (observe (observe r k1) k2) k1 o) k2
        (Except.ok d)).state = ⟨Status.resolved, some d, none⟩ := by
  have hk2 : (observe (observe r k1) k2).key = some k2 :=
    observe_key (observe r k1) k2
  have hmiss : settle (observe (observe r k1) k2) k1 o
      = observe (observe r k1) k2 := by
    apply settle_miss
    rw [hk2]
    intro hc
    exact h (Option.some.inj hc).symm
  refine ⟨hmiss, ?_⟩
  rw [hmiss, settle_ok (observe (observe r k1) k2) k2 d hk2]

theorem staleness_discard_witness :
    settle (observe (observe initResource "mew") "ditto") "mew"
        (Except.ok "stale.json")
      = observe (observe initResource "mew") "ditto" :=
  (staleness_discard initResource "mew" "ditto" "fresh.json"
    (Except.ok "stale.json") (by decide)).1

/-- C3. The read path raises the stored error synchronously exactly when
the status is rejected: for every RequestState, render returns an error if
and only if the status is rejected. A fetch failure is captured into state
at settlement time (the settle transition returns a new state and raises
nothing: its result type is AsyncResource), and while the status remains
rejected, render re-raises exactly the stored error. -/
theorem render_raises_iff_rejected (r : AsyncResource) (k e : String)
    (h : r.key = some k) :
    (∀ s : RequestState,
      (∃ msg, render s = Except.error msg) ↔ s.status = Status.rejected) ∧
    (settle r k (Except.error e)).state.status = Status.rejected ∧
    (settle r k (Except.error e)).state.error = some e ∧
    render (settle r k (Except.error e)).state = Except.error e := by
  refine ⟨?_, ?_, ?_, ?_⟩
  · intro s
    obtain ⟨st, d, er⟩ := s
    cases st <;> simp [render]
  · rw [settle_err r k e h]
  · rw [settle_err r k e h]
  · rw [settle_err r k e h]
    rfl

theorem render_raises_iff_rejected_witness :
    render (settle (observe initResource "abc") "abc"
        (Except.error "No such pokemon")).state
      = Except.error "No such pokemon" :=
  (render_raises_iff_rejected (observe initResource "abc") "abc"
    "No such pokemon" (observe_key initResource "abc")).2.2.2

/-- C4. Reset by identity: when the identity token changes from the one the
boundary last saw to a different one, the boundary instance is discarded
and replaced by a brand-new one in the healthy state with an empty
BoundaryRecord (no captured-error state survives), and that fresh boundary
re-attempts the wrapped subtree; when the identity is unchanged, the
boundary persists exactly as it was. -/
theorem reset_by_identity (b : Boundary) (id1 id2 : String)
    (hb : b.identity = id1) (hne : id1 ≠ id2) :
    reset b id2 = newBoundary id2 ∧
    (reset b id2).record = ⟨false, none⟩ ∧
    (∀ out, wrap (reset b id2) (Except.ok out)
      = (newBoundary id2, BoundaryView.content out)) ∧
    reset b id1 = b := by
  have hr : reset b id2 = newBoundary id2 := by
    unfold reset
    rw [if_neg]
    rw [hb]
    exact hne
  refine ⟨hr, by rw [hr]; rfl, ?_, ?_⟩
  · intro out
    rw [hr]
    rfl
  · unfold reset
    rw [if_pos hb]

theorem reset_by_identity_witness :
    reset ⟨"mew", ⟨true, some "No such pokemon"⟩⟩ "ditto"
      = newBoundary "ditto" :=
  (reset_by_identity ⟨"mew", ⟨true, some "No such pokemon"⟩⟩ "mew" "ditto"
    rfl (by decide)).1

/-- C5. Sticky failure: once a boundary has captured a failure, every
render under the same instance (identity unchanged) keeps the failed
record, renders the fallback built from the captured error, and never
re-attempts the wrapped subtree: the render result does not depend on the
subtree at all, even when that subtree would now succeed. -/
theorem sticky_failure (b : Boundary) (hf : b.record.hasFailed = true) :
    (∀ s1 s2 : Except String String, wrap b s1 = wrap b s2) ∧
    (∀ out, wrap b (Except.ok out)
      = (b, BoundaryView.fallback (b.record.capturedError.getD ""))) ∧
    (∀ s, ((wrap b s).1).record.hasFailed = true) := by
  have hw : ∀ s : Except String String,
      wrap b s = (b, BoundaryView.fallback (b.record.capturedError.getD "")) := by
    intro s
    unfold wrap
    rw [if_pos hf]
  exact ⟨fun s1 s2 => by rw [hw s1, hw s2],
    fun out => hw (Except.ok out),
    fun s => by rw [hw s]; exact hf⟩

theorem sticky_failure_witness :
    wrap ⟨"mew", ⟨true, some "No such pokemon"⟩⟩ (Except.ok "fresh data")
      = (⟨"mew", ⟨true, some "No such pokemon"⟩⟩,
          BoundaryView.fallback "No such pokemon") :=
  (sticky_failure ⟨"mew", ⟨true, some "No such pokemon"⟩⟩ rfl).2.1
    "fresh data"

/-- C6. Idempotent observe: an observe call whose key equals the tracked
key is a complete no-op (the existing RequestState is returned unchanged
and no fetch is issued); consequently a second observe of the same key
right after a first one changes nothing, and two successive observe calls
with the same key from a fresh instance issue exactly one fetch. -/
theorem observe_idempotent (r : AsyncResource) (k : String)
    (hk : r.key = some k) :
    observe r k = r ∧
    (∀ r2 : AsyncResource, observe (observe r2 k) k = observe r2 k) ∧
    (observe (observe initResource k) k).fetches = [k] := by
  refine ⟨observe_noop r k hk, ?_, ?_⟩
  · intro r2
    exact observe_noop (observe r2 k) k (observe_key r2 k)
  · rw [observe_noop (observe initResource k) k (observe_key initResource k)]
    unfold observe
    rw [if_neg]
    · rfl
    · intro hc
      exact Option.noConfusion hc

theorem observe_idempotent_witness :
    observe (observe initResource "pikachu") "pikachu"
      = observe initResource "pikachu" :=
  (observe_idempotent (observe initResource "pikachu") "pikachu"
    (observe_key initResource "pikachu")).1

/-- C7. RequestState invariant: in every state reachable from a fresh
instance by any sequence of observe calls and settlements, the status is
one of the four enumerated values, data is present if and only if the
status is resolved, and error is present if and only if the status is
rejected, so data and error are mutually exclusive. -/
theorem requestState_invariant (es : List Event) :
    ((run es).state.data ≠ none ↔ (run es).state.status = Status.resolved) ∧
    ((run es).state.error ≠ none ↔ (run es).state.status = Status.rejected) ∧
    ((run es).state.status = Status.idle ∨
     (run es).state.status = Status.pending ∨
     (run es).state.status = Status.resolved ∨
     (run es).state.status = Status.rejected) := by
  refine ⟨(goodState_run es).1, (goodState_run es).2, ?_⟩
  cases (run es).state.status <;> simp

/-- The target of a DOM change event, carrying the typed value, as read by
handleChange in src/src/exercise/01.js. -/
structure EventTarget where
  value : String
  deriving DecidableEq

/-- A DOM change event delivered to the Greeting input. -/
structure ChangeEvent where
  target : EventTarget
  deriving DecidableEq

/-- The handleChange function of src/src/exercise/01.js lines 11 to 14: it
destructures value from event.target and passes it to setInitialName, so
the new state is exactly the typed value. -/
def handleChange (event : ChangeEvent) : String :=
  event.target.value

/-- The conditional part of the Greeting JSX, line 22 of
src/src/exercise/01.js: a non-empty (truthy) state renders the strong
element with the text Hello followed by the state value; an empty state
renders the prompt text (Please type your name). -/
inductive GreetingMessage
  | hello (name : String)
  | prompt
  deriving DecidableEq

/-- What one render of Greeting displays: the value attribute of the
controlled input (line 20) and the message below the form (line 22). -/
structure GreetingView where
  inputValue : String
  message : GreetingMessage
  deriving DecidableEq

/-- The render output of Greeting for a given state value, from
src/src/exercise/01.js lines 16 to 23: the input shows the state, and the
message is the hello greeting exactly when the state is non-empty
(JavaScript string truthiness). -/
def renderGreeting (initialName : String) : GreetingView :=
  ⟨initialName,
    if initialName = "" then GreetingMessage.prompt
    else GreetingMessage.hello initialName⟩

/-- A mounted Greeting component instance: its single piece of useState
state, the initialName string. -/
structure GreetingInstance where
  state : String
  deriving DecidableEq

/-- Mounting Greeting with an optional name prop, per line 7 of
src/src/exercise/01.js: the name parameter defaults to the empty string,
and useState name makes it the initial state. -/
def mountGreeting (nameProp : Option String) : GreetingInstance :=
  ⟨nameProp.getD ""⟩

/-- Re-rendering a mounted Greeting with a (possibly different) name prop:
per the React useState contract, the initializer argument is only consulted
on the first render, so the stored state is untouched by the new prop. -/
def rerenderGreeting (inst : GreetingInstance) (_nameProp : Option String) :
    GreetingInstance :=
  inst

/-- Delivering a change event to the mounted Greeting: the onChange handler
of the input (line 20) is handleChange, which replaces the state with the
typed value. -/
def greetingStep (inst : GreetingInstance) (e : ChangeEvent) :
    GreetingInstance :=
  ⟨handleChange e⟩

/-- The App component of src/src/exercise/01.js lines 30 to 32: it renders
Greeting with no name prop. -/
def App : GreetingInstance :=
  mountGreeting none

/-- C8. App mounts Greeting with no name prop, so the name defaults to the
empty string: the initial state is empty, the initial render shows an input
whose value is the empty string together with the prompt text, and for
every state value s the hello greeting for s is rendered if and only if s
is a non-empty string. -/
theorem greeting_initial_render :
    App.state = "" ∧
    (renderGreeting App.state).inputValue = "" ∧
    (renderGreeting App.state).message = GreetingMessage.prompt ∧
    (∀ s : String,
      (renderGreeting s).message = GreetingMessage.hello s ↔ s ≠ "") := by
  refine ⟨rfl, rfl, rfl, ?_⟩
  intro s
  by_cases h : s = "" <;> simp [renderGreeting, h]

/-- C9. Controlled-input round trip: a change event carrying value v makes
handleChange return exactly v, the resulting state is exactly v, and the
next render displays v in the input, with no transformation or truncation
applied. -/
theorem controlled_input_round_trip (v : String) (inst : GreetingInstance) :
    handleChange ⟨⟨v⟩⟩ = v ∧
    (greetingStep inst ⟨⟨v⟩⟩).state = v ∧
    (renderGreeting (greetingStep inst ⟨⟨v⟩⟩).state).inputValue = v :=
  ⟨rfl, rfl, rfl⟩

/-- C10. The name prop only seeds the initial state: mounting with a name
stores that name, but every re-render with any (hence also a different)
name prop leaves the instance, its rendered view, the displayed input value
and the greeting unchanged; only a change event through handleChange can
change the state. -/
theorem name_prop_initial_only (inst : GreetingInstance) (p : Option String)
    (n : String) :
    rerenderGreeting inst p = inst ∧
    renderGreeting (rerenderGreeting inst p).state
      = renderGreeting inst.state ∧
    mountGreeting (some n) = ⟨n⟩ ∧
    (∀ e : ChangeEvent, (greetingStep inst e).state = e.target.value) :=
  ⟨rfl, rfl, rfl, fun _ => rfl⟩

end ReactHooks
